import Mathlib

/-!
Shallow embedding of the quadrotor simulator core: 6-DOF plant with RK4
integration and motor allocation (physics.js), the four controllers
(controllers.js), and the reference generator (trajectories.js).
All JS numbers are modelled as real numbers.
-/

namespace Drone

noncomputable section

/-! ### Physics parameters (physics.js PARAMS) -/

def m : ℝ := 0.5
def g : ℝ := 9.81
def Ixx : ℝ := 0.0023
def Iyy : ℝ := 0.0023
def Izz : ℝ := 0.004
def Larm : ℝ := 0.17
def kT : ℝ := 2.98e-6
def kD : ℝ := 1.14e-7
def Cd : ℝ := 0.04
def wMax : ℝ := 2200
def wMin : ℝ := 0

/-- Math.max(lo, Math.min(hi, v)), the clamp helper of physics.js. -/
def clamp (v lo hi : ℝ) : ℝ := max lo (min hi v)

/-! ### State, input, environment -/

/-- The 12-dimensional rigid-body state plus stored motor speeds. -/
structure State where
  x : ℝ
  y : ℝ
  z : ℝ
  vx : ℝ
  vy : ℝ
  vz : ℝ
  phi : ℝ
  theta : ℝ
  psi : ℝ
  p : ℝ
  q : ℝ
  r : ℝ
  motors : ℝ × ℝ × ℝ × ℝ

/-- Control input vector (T, tau_phi, tau_theta, tau_psi). -/
structure Input where
  T : ℝ
  tau_phi : ℝ
  tau_theta : ℝ
  tau_psi : ℝ

/-- Wind environment forces. -/
structure Env where
  windX : ℝ
  windY : ℝ
  windZ : ℝ

/-- The 12 time-derivatives returned by the derivatives function. -/
structure Deriv where
  dx : ℝ
  dy : ℝ
  dz : ℝ
  dvx : ℝ
  dvy : ℝ
  dvz : ℝ
  dphi : ℝ
  dtheta : ℝ
  dpsi : ℝ
  dp : ℝ
  dq : ℝ
  dr : ℝ

/-! ### Motor allocation (physics.js allocateMotors) -/

/-- Raw omega-squared of motor 1: a - b - c - d. -/
def w1sqRaw (T tp tt ts : ℝ) : ℝ :=
  T / (4 * kT) - tp * Real.sqrt 2 / (4 * kT * Larm)
    - tt * Real.sqrt 2 / (4 * kT * Larm) - ts / (4 * kD)

/-- Raw omega-squared of motor 2: a - b + c + d. -/
def w2sqRaw (T tp tt ts : ℝ) : ℝ :=
  T / (4 * kT) - tp * Real.sqrt 2 / (4 * kT * Larm)
    + tt * Real.sqrt 2 / (4 * kT * Larm) + ts / (4 * kD)

/-- Raw omega-squared of motor 3: a + b + c - d. -/
def w3sqRaw (T tp tt ts : ℝ) : ℝ :=
  T / (4 * kT) + tp * Real.sqrt 2 / (4 * kT * Larm)
    + tt * Real.sqrt 2 / (4 * kT * Larm) - ts / (4 * kD)

/-- Raw omega-squared of motor 4: a + b - c + d. -/
def w4sqRaw (T tp tt ts : ℝ) : ℝ :=
  T / (4 * kT) + tp * Real.sqrt 2 / (4 * kT * Larm)
    - tt * Real.sqrt 2 / (4 * kT * Larm) + ts / (4 * kD)

/-- Inverse mixing: input (T, tau_phi, tau_theta, tau_psi) to the four motor
speeds, each omega-squared clamped to the interval from 0 to wMax^2 before
the square root. -/
def allocateMotors (T tp tt ts : ℝ) : ℝ × ℝ × ℝ × ℝ :=
  (Real.sqrt (clamp (w1sqRaw T tp tt ts) 0 (wMax * wMax)),
   Real.sqrt (clamp (w2sqRaw T tp tt ts) 0 (wMax * wMax)),
   Real.sqrt (clamp (w3sqRaw T tp tt ts) 0 (wMax * wMax)),
   Real.sqrt (clamp (w4sqRaw T tp tt ts) 0 (wMax * wMax)))

/-! ### Forward mixing (the mixing-matrix comment of physics.js) -/

/-- Forward mixing, thrust row: T = kT (w1^2 + w2^2 + w3^2 + w4^2). -/
def mixT (w : ℝ × ℝ × ℝ × ℝ) : ℝ :=
  kT * (w.1 ^ 2 + w.2.1 ^ 2 + w.2.2.1 ^ 2 + w.2.2.2 ^ 2)

/-- Forward mixing, roll row. -/
def mixTauPhi (w : ℝ × ℝ × ℝ × ℝ) : ℝ :=
  kT * Larm * (-w.1 ^ 2 - w.2.1 ^ 2 + w.2.2.1 ^ 2 + w.2.2.2 ^ 2) / Real.sqrt 2

/-- Forward mixing, pitch row. -/
def mixTauTheta (w : ℝ × ℝ × ℝ × ℝ) : ℝ :=
  kT * Larm * (-w.1 ^ 2 + w.2.1 ^ 2 + w.2.2.1 ^ 2 - w.2.2.2 ^ 2) / Real.sqrt 2

/-- Forward mixing, yaw row. -/
def mixTauPsi (w : ℝ × ℝ × ℝ × ℝ) : ℝ :=
  kD * (-w.1 ^ 2 + w.2.1 ^ 2 - w.2.2.1 ^ 2 + w.2.2.2 ^ 2)

/-! ### Dynamics (physics.js derivatives, addScaled, step) -/

/-- Time-derivatives of the 12 state components. -/
def derivatives (s : State) (u : Input) (env : Env) : Deriv :=
  let cphi := Real.cos s.phi
  let sphi := Real.sin s.phi
  let cth := Real.cos s.theta
  let sth := Real.sin s.theta
  let cpsi := Real.cos s.psi
  let spsi := Real.sin s.psi
  let Tx := u.T * (cpsi * sth * cphi + spsi * sphi)
  let Ty := u.T * (cth * cphi)
  let Tz := u.T * (spsi * sth * cphi - cpsi * sphi)
  { dx := s.vx
    dy := s.vy
    dz := s.vz
    dvx := Tx / m - Cd * s.vx + env.windX
    dvy := Ty / m - g - Cd * s.vy + env.windY
    dvz := Tz / m - Cd * s.vz + env.windZ
    dphi := s.p + (sphi * sth / cth) * s.q + (cphi * sth / cth) * s.r
    dtheta := cphi * s.q - sphi * s.r
    dpsi := (sphi / cth) * s.q + (cphi / cth) * s.r
    dp := (u.tau_phi - (Izz - Iyy) * s.q * s.r) / Ixx
    dq := (u.tau_theta - (Ixx - Izz) * s.p * s.r) / Iyy
    dr := (u.tau_psi - (Iyy - Ixx) * s.p * s.q) / Izz }

/-- Value-copy of the state advanced by h times a derivative. -/
def addScaled (s : State) (k : Deriv) (h : ℝ) : State :=
  { s with
    x := s.x + k.dx * h, y := s.y + k.dy * h, z := s.z + k.dz * h,
    vx := s.vx + k.dvx * h, vy := s.vy + k.dvy * h, vz := s.vz + k.dvz * h,
    phi := s.phi + k.dphi * h, theta := s.theta + k.dtheta * h,
    psi := s.psi + k.dpsi * h,
    p := s.p + k.dp * h, q := s.q + k.dq * h, r := s.r + k.dr * h }

/-- Classical 4-stage RK4 combination, before the ground-contact clamp and
before the motor speeds are stored. -/
def rk4 (s : State) (u : Input) (env : Env) (dt : ℝ) : State :=
  let k1 := derivatives s u env
  let s2 := addScaled s k1 (dt / 2)
  let k2 := derivatives s2 u env
  let s3 := addScaled s k2 (dt / 2)
  let k3 := derivatives s3 u env
  let s4 := addScaled s k3 dt
  let k4 := derivatives s4 u env
  { s with
    x := s.x + dt / 6 * (k1.dx + 2 * k2.dx + 2 * k3.dx + k4.dx),
    y := s.y + dt / 6 * (k1.dy + 2 * k2.dy + 2 * k3.dy + k4.dy),
    z := s.z + dt / 6 * (k1.dz + 2 * k2.dz + 2 * k3.dz + k4.dz),
    vx := s.vx + dt / 6 * (k1.dvx + 2 * k2.dvx + 2 * k3.dvx + k4.dvx),
    vy := s.vy + dt / 6 * (k1.dvy + 2 * k2.dvy + 2 * k3.dvy + k4.dvy),
    vz := s.vz + dt / 6 * (k1.dvz + 2 * k2.dvz + 2 * k3.dvz + k4.dvz),
    phi := s.phi + dt / 6 * (k1.dphi + 2 * k2.dphi + 2 * k3.dphi + k4.dphi),
    theta := s.theta + dt / 6 * (k1.dtheta + 2 * k2.dtheta + 2 * k3.dtheta + k4.dtheta),
    psi := s.psi + dt / 6 * (k1.dpsi + 2 * k2.dpsi + 2 * k3.dpsi + k4.dpsi),
    p := s.p + dt / 6 * (k1.dp + 2 * k2.dp + 2 * k3.dp + k4.dp),
    q := s.q + dt / 6 * (k1.dq + 2 * k2.dq + 2 * k3.dq + k4.dq),
    r := s.r + dt / 6 * (k1.dr + 2 * k2.dr + 2 * k3.dr + k4.dr) }

/-- One plant step: RK4 integration, then the ground-contact clamp, then the
motor speeds are stored for telemetry. -/
def step (s : State) (u : Input) (env : Env) (dt : ℝ) : State :=
  let si := rk4 s u env dt
  let sg := if si.y < 0 then { si with y := 0, vy := max 0 si.vy } else si
  { sg with motors := allocateMotors u.T u.tau_phi u.tau_theta u.tau_psi }

/-! ### Controllers (controllers.js) -/

/-- Setpoint record produced by the reference generator and consumed by the
controllers; the feed-forward velocity and yaw default to 0 in the source. -/
structure Target where
  x : ℝ
  y : ℝ
  z : ℝ
  vx : ℝ
  vy : ℝ
  vz : ℝ
  yaw : ℝ

/-- Controller internal state (integrators, super-twisting accumulators,
telemetry fields and the published MPC prediction). -/
structure IntState where
  iEx : ℝ
  iEy : ℝ
  iEz : ℝ
  v_x : ℝ
  v_y : ℝ
  v_z : ℝ
  v_phi : ℝ
  v_theta : ℝ
  v_psi : ℝ
  s_x : ℝ
  s_y : ℝ
  s_z : ℝ
  s_phi : ℝ
  s_theta : ℝ
  T : ℝ
  tau_phi : ℝ
  tau_theta : ℝ
  tau_psi : ℝ
  mpcPrediction : List (ℝ × ℝ × ℝ)

/-- The zeroed internal state produced by resetInternal. -/
def resetInternal : IntState :=
  { iEx := 0, iEy := 0, iEz := 0, v_x := 0, v_y := 0, v_z := 0,
    v_phi := 0, v_theta := 0, v_psi := 0, s_x := 0, s_y := 0, s_z := 0,
    s_phi := 0, s_theta := 0, T := 0, tau_phi := 0, tau_theta := 0,
    tau_psi := 0, mpcPrediction := [] }

/-- Signum with sign 0 = 0. -/
def sign (x : ℝ) : ℝ := if x > 0 then 1 else if x < 0 then -1 else 0

/-- Boundary layer saturation: s divided by phi clamped to the interval from
-1 to 1 when phi is positive, otherwise pure signum. -/
def sat (s phi : ℝ) : ℝ :=
  if phi ≤ 0 then sign s
  else if |s / phi| ≤ 1 then s / phi else sign (s / phi)

/-- PID gain record. -/
structure PIDGains where
  Kp_xy : ℝ
  Ki_xy : ℝ
  Kd_xy : ℝ
  Kp_z : ℝ
  Ki_z : ℝ
  Kd_z : ℝ
  Kp_att : ℝ
  Kd_att : ℝ
  Kp_yaw : ℝ
  Kd_yaw : ℝ
  iMax : ℝ

/-- Sliding-mode gain record. -/
structure SMCGains where
  lambda_xy : ℝ
  lambda_z : ℝ
  eta_xy : ℝ
  eta_z : ℝ
  phi_xy : ℝ
  phi_z : ℝ
  lambda_att : ℝ
  eta_att : ℝ
  phi_att : ℝ

/-- Super-twisting gain record. -/
structure STSGains where
  lambda_xy : ℝ
  lambda_z : ℝ
  alpha1_xy : ℝ
  alpha2_xy : ℝ
  alpha1_z : ℝ
  alpha2_z : ℝ
  lambda_att : ℝ
  alpha1_att : ℝ
  alpha2_att : ℝ

/-- Predictive-controller gain record; the horizon N is a natural number. -/
structure MPCGains where
  N : ℕ
  Q_pos : ℝ
  Q_vel : ℝ
  R : ℝ
  Kp_att : ℝ
  Kd_att : ℝ

/-- All observable outputs of one controller invocation: the desired
world-frame accelerations, the thrust, the desired attitude, and the
returned torques. -/
structure CtrlResult where
  ax_des : ℝ
  ay_des : ℝ
  az_des : ℝ
  T : ℝ
  phi_des : ℝ
  theta_des : ℝ
  tau_phi : ℝ
  tau_theta : ℝ
  tau_psi : ℝ

/-- The four-vector actually returned by a controller. -/
def ctrlVec (r : CtrlResult) : ℝ × ℝ × ℝ × ℝ :=
  (r.T, r.tau_phi, r.tau_theta, r.tau_psi)

/-- Math.atan2, following the standard quadrant-aware definition. -/
def atan2 (y x : ℝ) : ℝ :=
  if 0 < x then Real.arctan (y / x)
  else if x < 0 then
    (if 0 ≤ y then Real.arctan (y / x) + Real.pi
     else Real.arctan (y / x) - Real.pi)
  else if 0 < y then Real.pi / 2
  else if y < 0 then -(Real.pi / 2)
  else 0

/-- Thrust extraction shared verbatim by all four controllers. -/
def thrustOf (s : State) (ay_des : ℝ) : ℝ :=
  clamp (m * (g + ay_des) / max (Real.cos s.phi * Real.cos s.theta) 0.1)
    0 (m * g * 4)

/-- Desired roll extraction shared verbatim by all four controllers. -/
def phiDesOf (s : State) (ax_des az_des T : ℝ) : ℝ :=
  clamp (Real.arcsin (clamp
    (m * (ax_des * Real.sin s.psi - az_des * Real.cos s.psi) / max T 0.1)
    (-0.8) 0.8)) (-0.6) 0.6

/-- Desired pitch extraction shared verbatim by all four controllers. -/
def thetaDesOf (s : State) (ax_des ay_des az_des : ℝ) : ℝ :=
  clamp (atan2 (ax_des * Real.cos s.psi + az_des * Real.sin s.psi)
    (g + ay_des)) (-0.6) 0.6

/-- Cascaded PID controller (controllers.js computePID): returns the updated
internal state and the full invocation result. -/
def computePID (ist : IntState) (s : State) (tgt : Target) (G : PIDGains)
    (dt : ℝ) : IntState × CtrlResult :=
  let ex := tgt.x - s.x
  let ey := tgt.y - s.y
  let ez := tgt.z - s.z
  let evx := tgt.vx - s.vx
  let evy := tgt.vy - s.vy
  let evz := tgt.vz - s.vz
  let iEx := clamp (ist.iEx + ex * dt) (-G.iMax) G.iMax
  let iEy := clamp (ist.iEy + ey * dt) (-G.iMax) G.iMax
  let iEz := clamp (ist.iEz + ez * dt) (-G.iMax) G.iMax
  let ax_des := G.Kp_xy * ex + G.Ki_xy * iEx + G.Kd_xy * evx
  let ay_des := G.Kp_z * ey + G.Ki_z * iEy + G.Kd_z * evy
  let az_des := G.Kp_xy * ez + G.Ki_xy * iEz + G.Kd_xy * evz
  let T := thrustOf s ay_des
  let phi_des := phiDesOf s ax_des az_des T
  let theta_des := thetaDesOf s ax_des ay_des az_des
  let psi_des := tgt.yaw
  let tau_phi := G.Kp_att * (phi_des - s.phi) - G.Kd_att * s.p
  let tau_theta := G.Kp_att * (theta_des - s.theta) - G.Kd_att * s.q
  let tau_psi := G.Kp_yaw * (psi_des - s.psi) - G.Kd_yaw * s.r
  ({ ist with
      iEx := iEx, iEy := iEy, iEz := iEz,
      s_x := ex, s_y := ey, s_z := ez,
      T := T, tau_phi := tau_phi, tau_theta := tau_theta, tau_psi := tau_psi },
   { ax_des := ax_des, ay_des := ay_des, az_des := az_des, T := T,
     phi_des := phi_des, theta_des := theta_des,
     tau_phi := tau_phi, tau_theta := tau_theta, tau_psi := tau_psi })

/-- Sliding-mode controller (controllers.js computeSMC). -/
def computeSMC (ist : IntState) (s : State) (tgt : Target) (G : SMCGains)
    (dt : ℝ) : IntState × CtrlResult :=
  let ex := tgt.x - s.x
  let evx := tgt.vx - s.vx
  let ey := tgt.y - s.y
  let evy := tgt.vy - s.vy
  let ez := tgt.z - s.z
  let evz := tgt.vz - s.vz
  let sx := evx + G.lambda_xy * ex
  let sy := evy + G.lambda_z * ey
  let sz := evz + G.lambda_xy * ez
  let ax_des := G.lambda_xy * evx + G.eta_xy * sat sx G.phi_xy
  let ay_des := G.lambda_z * evy + G.eta_z * sat sy G.phi_z
  let az_des := G.lambda_xy * evz + G.eta_xy * sat sz G.phi_xy
  let T := thrustOf s ay_des
  let phi_des := phiDesOf s ax_des az_des T
  let theta_des := thetaDesOf s ax_des ay_des az_des
  let s_phi := -s.p + G.lambda_att * (phi_des - s.phi)
  let s_theta := -s.q + G.lambda_att * (theta_des - s.theta)
  let s_psi := -s.r + G.lambda_att * (0 - s.psi)
  let tau_phi := Ixx * (G.lambda_att * (-s.p) + G.eta_att * sat s_phi G.phi_att)
  let tau_theta := Iyy * (G.lambda_att * (-s.q) + G.eta_att * sat s_theta G.phi_att)
  let tau_psi := Izz * (G.lambda_att * (-s.r) + G.eta_att * sat s_psi G.phi_att)
  ({ ist with
      s_x := sx, s_y := sy, s_z := sz, s_phi := s_phi, s_theta := s_theta,
      T := T, tau_phi := tau_phi, tau_theta := tau_theta, tau_psi := tau_psi },
   { ax_des := ax_des, ay_des := ay_des, az_des := az_des, T := T,
     phi_des := phi_des, theta_des := theta_des,
     tau_phi := tau_phi, tau_theta := tau_theta, tau_psi := tau_psi })

/-- Super-twisting controller (controllers.js computeSTS). -/
def computeSTS (ist : IntState) (s : State) (tgt : Target) (G : STSGains)
    (dt : ℝ) : IntState × CtrlResult :=
  let ex := tgt.x - s.x
  let evx := tgt.vx - s.vx
  let ey := tgt.y - s.y
  let evy := tgt.vy - s.vy
  let ez := tgt.z - s.z
  let evz := tgt.vz - s.vz
  let sx := evx + G.lambda_xy * ex
  let sy := evy + G.lambda_z * ey
  let sz := evz + G.lambda_xy * ez
  let v_x := ist.v_x + -G.alpha2_xy * sign sx * dt
  let v_y := ist.v_y + -G.alpha2_z * sign sy * dt
  let v_z := ist.v_z + -G.alpha2_xy * sign sz * dt
  let ax_des := G.alpha1_xy * Real.sqrt |sx| * sign sx + v_x
  let ay_des := G.alpha1_z * Real.sqrt |sy| * sign sy + v_y
  let az_des := G.alpha1_xy * Real.sqrt |sz| * sign sz + v_z
  let T := thrustOf s ay_des
  let phi_des := phiDesOf s ax_des az_des T
  let theta_des := thetaDesOf s ax_des ay_des az_des
  let s_phi := -s.p + G.lambda_att * (phi_des - s.phi)
  let s_theta := -s.q + G.lambda_att * (theta_des - s.theta)
  let s_psi := -s.r + G.lambda_att * (0 - s.psi)
  let v_phi := ist.v_phi + -G.alpha2_att * sign s_phi * dt
  let v_theta := ist.v_theta + -G.alpha2_att * sign s_theta * dt
  let v_psi := ist.v_psi + -G.alpha2_att * sign s_psi * dt
  let tau_phi := Ixx * (G.alpha1_att * Real.sqrt |s_phi| * sign s_phi + v_phi)
  let tau_theta := Iyy * (G.alpha1_att * Real.sqrt |s_theta| * sign s_theta + v_theta)
  let tau_psi := Izz * (G.alpha1_att * Real.sqrt |s_psi| * sign s_psi + v_psi)
  ({ ist with
      v_x := v_x, v_y := v_y, v_z := v_z,
      v_phi := v_phi, v_theta := v_theta, v_psi := v_psi,
      s_x := sx, s_y := sy, s_z := sz, s_phi := s_phi, s_theta := s_theta,
      T := T, tau_phi := tau_phi, tau_theta := tau_theta, tau_psi := tau_psi },
   { ax_des := ax_des, ay_des := ay_des, az_des := az_des, T := T,
     phi_des := phi_des, theta_des := theta_des,
     tau_phi := tau_phi, tau_theta := tau_theta, tau_psi := tau_psi })

/-! ### Predictive controller (controllers.js computeMPC) -/

/-- The reference lookup used per axis: the trajectory closure when one is
supplied, otherwise the current target. -/
def refFnOf (tgt : Target) (traj : Option (ℝ → Target)) : ℝ → Target :=
  fun t => match traj with
  | some f => f t
  | none => tgt

/-- Accumulation loop of solve1D: after j iterations it holds the pair
(totalAccel, weightSum) of the source loop run for k = 1..j. -/
def mpcAccum (N : ℕ) (pos vel : ℝ) (refFn : ℝ → ℝ) (Qp Qv time dtPred : ℝ) :
    ℕ → ℝ × ℝ
  | 0 => (0, 0)
  | j + 1 =>
    let prev := mpcAccum N pos vel refFn Qp Qv time dtPred j
    let k : ℝ := (j : ℝ) + 1
    let tFuture := time + k * dtPred
    let predPos := pos + vel * (k * dtPred)
    let errPos := refFn tFuture - predPos
    let w := 1 - 0.3 * (k - 1) / (N : ℝ)
    (prev.1 + w * (Qp * errPos - Qv * vel), prev.2 + w)

/-- One-axis closed-form MPC solve (the solve1D helper of computeMPC). -/
def solve1D (N : ℕ) (pos vel : ℝ) (refFn : ℝ → ℝ) (Qp Qv R time dtPred : ℝ) : ℝ :=
  let acc := mpcAccum N pos vel refFn Qp Qv time dtPred N
  acc.1 / (acc.2 * (1 + R))

/-- Predictive controller: per-axis solve1D, published prediction rollout,
then the shared thrust extraction and a PD attitude inner loop. -/
def computeMPC (ist : IntState) (s : State) (tgt : Target) (G : MPCGains)
    (dt : ℝ) (traj : Option (ℝ → Target)) (time : ℝ) : IntState × CtrlResult :=
  let dtPred := dt * 2
  let ax_des := solve1D G.N s.x s.vx (fun t => (refFnOf tgt traj t).x)
    G.Q_pos G.Q_vel G.R time dtPred
  let ay_des := solve1D G.N s.y s.vy (fun t => (refFnOf tgt traj t).y)
    G.Q_pos G.Q_vel G.R time dtPred
  let az_des := solve1D G.N s.z s.vz (fun t => (refFnOf tgt traj t).z)
    G.Q_pos G.Q_vel G.R time dtPred
  let pred := (List.range (G.N + 1)).map (fun (k : ℕ) =>
    (s.x + s.vx * ((k : ℝ) * dtPred) + 0.5 * ax_des * ((k : ℝ) * dtPred) ^ 2,
     s.y + s.vy * ((k : ℝ) * dtPred) + 0.5 * ay_des * ((k : ℝ) * dtPred) ^ 2,
     s.z + s.vz * ((k : ℝ) * dtPred) + 0.5 * az_des * ((k : ℝ) * dtPred) ^ 2))
  let T := thrustOf s ay_des
  let phi_des := phiDesOf s ax_des az_des T
  let theta_des := thetaDesOf s ax_des ay_des az_des
  let tau_phi := G.Kp_att * (phi_des - s.phi) - G.Kd_att * s.p
  let tau_theta := G.Kp_att * (theta_des - s.theta) - G.Kd_att * s.q
  let tau_psi := G.Kp_att * (0 - s.psi) - G.Kd_att * s.r
  ({ ist with
      mpcPrediction := pred,
      s_x := tgt.x - s.x, s_y := tgt.y - s.y, s_z := tgt.z - s.z,
      T := T, tau_phi := tau_phi, tau_theta := tau_theta, tau_psi := tau_psi },
   { ax_des := ax_des, ay_des := ay_des, az_des := az_des, T := T,
     phi_des := phi_des, theta_des := theta_des,
     tau_phi := tau_phi, tau_theta := tau_theta, tau_psi := tau_psi })

/-- Tagged per-algorithm gain set. -/
inductive GainSet where
  | PID (G : PIDGains)
  | SMC (G : SMCGains)
  | STS (G : STSGains)
  | MPC (G : MPCGains)

/-- Controller dispatch (controllers.js compute): an algorithm id outside the
four known cases falls through the switch and produces no result; a gain set
of the wrong shape likewise produces no usable result. -/
def compute (algo : String) (ist : IntState) (s : State) (tgt : Target)
    (gains : GainSet) (dt : ℝ) (traj : Option (ℝ → Target)) (time : ℝ) :
    Option (IntState × (ℝ × ℝ × ℝ × ℝ)) :=
  if algo = "PID" then
    match gains with
    | GainSet.PID G =>
      let r := computePID ist s tgt G dt
      some (r.1, ctrlVec r.2)
    | _ => none
  else if algo = "SMC" then
    match gains with
    | GainSet.SMC G =>
      let r := computeSMC ist s tgt G dt
      some (r.1, ctrlVec r.2)
    | _ => none
  else if algo = "STS" then
    match gains with
    | GainSet.STS G =>
      let r := computeSTS ist s tgt G dt
      some (r.1, ctrlVec r.2)
    | _ => none
  else if algo = "MPC" then
    match gains with
    | GainSet.MPC G =>
      let r := computeMPC ist s tgt G dt traj time
      some (r.1, ctrlVec r.2)
    | _ => none
  else none

/-! ### Reference trajectories (trajectories.js) -/

/-- The fallback setpoint returned for an unknown pattern id. -/
def defaultSetpoint : Target :=
  { x := 0, y := 3, z := 0, vx := 0, vy := 0, vz := 0, yaw := 0 }

/-- HOVER pattern with parameters (x, y, z). -/
def hoverFn (px py pz : ℝ) : Target :=
  { x := px, y := py, z := pz, vx := 0, vy := 0, vz := 0, yaw := 0 }

/-- CIRCLE pattern with parameters (radius, altitude, speed). -/
def circleFn (t radius altitude speed : ℝ) : Target :=
  { x := radius * Real.cos (speed * t),
    y := altitude,
    z := radius * Real.sin (speed * t),
    vx := -radius * speed * Real.sin (speed * t),
    vy := 0,
    vz := radius * speed * Real.cos (speed * t),
    yaw := 0 }

/-- HELIX pattern with parameters (radius, climbRate, speed). -/
def helixFn (t radius climbRate speed : ℝ) : Target :=
  { x := radius * Real.cos (speed * t),
    y := 1 + climbRate * t,
    z := radius * Real.sin (speed * t),
    vx := -radius * speed * Real.sin (speed * t),
    vy := climbRate,
    vz := radius * speed * Real.cos (speed * t),
    yaw := 0 }

/-- FIGURE8 pattern with parameters (scaleX, scaleZ, altitude, speed). -/
def figure8Fn (t scaleX scaleZ altitude speed : ℝ) : Target :=
  { x := scaleX * Real.cos (speed * t),
    y := altitude + 0.5 * Real.sin (speed * t * 0.5),
    z := scaleZ * Real.sin (2 * speed * t) / 2,
    vx := -scaleX * speed * Real.sin (speed * t),
    vy := 0.5 * 0.5 * speed * Real.cos (speed * t * 0.5),
    vz := scaleZ * speed * Real.cos (2 * speed * t),
    yaw := 0 }

/-- Truncation toward zero, as the implicit integer conversions of the
source behave on its nonnegative phases. -/
def jsTrunc (q : ℝ) : ℤ := if 0 ≤ q then ⌊q⌋ else ⌈q⌉

/-- Remainder with the sign of the dividend, modelling the JS % operator. -/
def jsMod (a b : ℝ) : ℝ := a - b * (jsTrunc (a / b) : ℝ)

/-- The corner table of the SQUARE pattern. -/
def squareCorner (size altitude : ℝ) (i : ℤ) : ℝ × ℝ × ℝ :=
  if i = 0 then (size, altitude, size)
  else if i = 1 then (-size, altitude, size)
  else if i = 2 then (-size, altitude, -size)
  else (size, altitude, -size)

/-- SQUARE pattern with parameters (size, altitude, holdTime): smoothstep
interpolation between the four corners, cyclic. -/
def squareFn (t size altitude holdTime : ℝ) : Target :=
  let totalPeriod := 4 * holdTime
  let phase := jsMod t totalPeriod
  let segIdx := jsTrunc (phase / holdTime)
  let segFrac := jsMod phase holdTime / holdTime
  let curr := squareCorner size altitude (segIdx % 4)
  let next := squareCorner size altitude ((segIdx + 1) % 4)
  let sm := segFrac * segFrac * (3 - 2 * segFrac)
  { x := curr.1 + (next.1 - curr.1) * sm,
    y := curr.2.1 + (next.2.1 - curr.2.1) * sm,
    z := curr.2.2 + (next.2.2 - curr.2.2) * sm,
    vx := 0, vy := 0, vz := 0, yaw := 0 }

/-- STEP pattern with parameters (startAlt, endAlt, stepTime). -/
def stepFn (t startAlt endAlt stepTime : ℝ) : Target :=
  { x := 0, y := if t < stepTime then startAlt else endAlt, z := 0,
    vx := 0, vy := 0, vz := 0, yaw := 0 }

/-- Evaluate a predefined trajectory at time t (trajectories.js evaluate):
a lookup of the pattern table at its default parameters, falling back to the
fixed default setpoint when the key is unknown. -/
def evaluate (key : String) (t : ℝ) : Target :=
  if key = "HOVER" then hoverFn 0 3 0
  else if key = "CIRCLE" then circleFn t 4 3 0.5
  else if key = "HELIX" then helixFn t 3 0.3 0.4
  else if key = "FIGURE8" then figure8Fn t 5 3 3.5 0.4
  else if key = "SQUARE" then squareFn t 4 3 3
  else if key = "STEP" then stepFn t 1 4 3
  else defaultSetpoint

/-! ### Custom waypoint walker (trajectories.js evaluateCustom) -/

/-- Walker state: waypoint list, traversal speed, segment index and
segment-local time. -/
structure CustomState where
  waypoints : List (ℝ × ℝ × ℝ)
  speed : ℝ
  idx : ℕ
  customT : ℝ

/-- The current segment start waypoint. -/
def customCurr (cs : CustomState) : ℝ × ℝ × ℝ :=
  cs.waypoints.getD (cs.idx % cs.waypoints.length) (0, 0, 0)

/-- The current segment end waypoint. -/
def customNext (cs : CustomState) : ℝ × ℝ × ℝ :=
  cs.waypoints.getD ((cs.idx + 1) % cs.waypoints.length) (0, 0, 0)

/-- Duration of the current segment: Euclidean length over traversal speed. -/
def customSegTime (cs : CustomState) : ℝ :=
  let dx := (customNext cs).1 - (customCurr cs).1
  let dy := (customNext cs).2.1 - (customCurr cs).2.1
  let dz := (customNext cs).2.2 - (customCurr cs).2.2
  Real.sqrt (dx * dx + dy * dy + dz * dz) / cs.speed

/-- The value Math.min(t2 / segTime, 1) of the source under IEEE division:
a positive numerator over a zero duration gives Infinity, whose minimum with
1 is 1, so a zero-length segment (duplicate consecutive waypoints) counts as
completed; elsewhere the division is the real one. -/
def jsFrac (t2 segTime : ℝ) : ℝ :=
  if segTime = 0 ∧ 0 < t2 then 1 else min (t2 / segTime) 1

/-- One walker call: returns the emitted setpoint and the post-call walker
state. The time argument of the source function is never read; the
segment-local time advances by the fixed constant 0.016, and reaching the
segment duration (a zero-length segment counts as reached) advances the
index cyclically and resets the segment-local time. -/
def evaluateCustom (cs : CustomState) (t : ℝ) : Target × CustomState :=
  if cs.waypoints.length = 0 then (defaultSetpoint, cs)
  else if cs.waypoints.length = 1 then
    let w := cs.waypoints.getD 0 (0, 0, 0)
    ({ x := w.1, y := w.2.1, z := w.2.2, vx := 0, vy := 0, vz := 0, yaw := 0 },
     cs)
  else
    let curr := customCurr cs
    let next := customNext cs
    let dx := next.1 - curr.1
    let dy := next.2.1 - curr.2.1
    let dz := next.2.2 - curr.2.2
    let t2 := cs.customT + 0.016
    let frac := jsFrac t2 (customSegTime cs)
    let cs2 :=
      if 1 ≤ frac then
        { cs with idx := (cs.idx + 1) % cs.waypoints.length, customT := 0 }
      else { cs with customT := t2 }
    let sm := frac * frac * (3 - 2 * frac)
    ({ x := curr.1 + dx * sm, y := curr.2.1 + dy * sm, z := curr.2.2 + dz * sm,
       vx := 0, vy := 0, vz := 0, yaw := 0 },
     cs2)

/-! ### Spec-side formula for the predictive controller (claim C6) -/

/-- The per-axis MPC acceleration exactly as the spec words it: the weighted
sum over the horizon k = 1..N of w_k (Q_pos e_k - Q_vel vel), divided by the
weight total times (1 + R), with prediction step 2 dt. Stated for comparison
against the solve1D loop of the source. -/
def solve1Dspec (N : ℕ) (pos vel : ℝ) (refFn : ℝ → ℝ) (Qp Qv R time dt : ℝ) : ℝ :=
  (∑ k in Finset.Icc 1 N, (1 - 0.3 * ((k : ℝ) - 1) / (N : ℝ)) *
      (Qp * (refFn (time + (k : ℝ) * (2 * dt)) - (pos + vel * ((k : ℝ) * (2 * dt))))
        - Qv * vel))
    / ((∑ k in Finset.Icc 1 N, (1 - 0.3 * ((k : ℝ) - 1) / (N : ℝ))) * (1 + R))

/-! ### Concrete instances used by counterexamples and witnesses -/

/-- The all-zero state produced by createState. -/
def state0 : State :=
  { x := 0, y := 0, z := 0, vx := 0, vy := 0, vz := 0,
    phi := 0, theta := 0, psi := 0, p := 0, q := 0, r := 0,
    motors := (0, 0, 0, 0) }

/-- A state resting below ground level, exercising the ground-contact clamp. -/
def stateNeg : State :=
  { x := 0, y := -1, z := 0, vx := 0, vy := 0, vz := 0,
    phi := 0, theta := 0, psi := 0, p := 0, q := 0, r := 0,
    motors := (0, 0, 0, 0) }

/-- Zero input vector. -/
def input0 : Input := { T := 0, tau_phi := 0, tau_theta := 0, tau_psi := 0 }

/-- Zero wind. -/
def env0 : Env := { windX := 0, windY := 0, windZ := 0 }

/-- The default PID gain record of controllers.js. -/
def gains0 : PIDGains :=
  { Kp_xy := 4, Ki_xy := 0.2, Kd_xy := 3, Kp_z := 8, Ki_z := 0.5, Kd_z := 5,
    Kp_att := 12, Kd_att := 4, Kp_yaw := 3, Kd_yaw := 1.5, iMax := 2 }

/-- PID gains isolating the proportional channels: Kp_xy = 1, Kp_z = 2,
all other gains zero, iMax = 1. -/
def gainsC1 : PIDGains :=
  { Kp_xy := 1, Ki_xy := 0, Kd_xy := 0, Kp_z := 2, Ki_z := 0, Kd_z := 0,
    Kp_att := 0, Kd_att := 0, Kp_yaw := 0, Kd_yaw := 0, iMax := 1 }

/-- Target one metre off in x and in y, with zero feed-forward velocity. -/
def tgtC1 : Target := { x := 1, y := 1, z := 0, vx := 0, vy := 0, vz := 0, yaw := 0 }

/-- SMC gains with zero translational boundary layer and unit gains. -/
def gainsC7 : SMCGains :=
  { lambda_xy := 1, lambda_z := 1, eta_xy := 1, eta_z := 1,
    phi_xy := 0, phi_z := 0, lambda_att := 1, eta_att := 1, phi_att := 0.1 }

/-- Target with position error 1 and velocity error -1 on the x axis, so
that the x sliding surface is exactly zero. -/
def tgtC7 : Target := { x := 1, y := 0, z := 0, vx := -1, vy := 0, vz := 0, yaw := 0 }

/-- Walker with no waypoints. -/
def emptyWalker : CustomState := { waypoints := [], speed := 1, idx := 0, customT := 0 }

/-- Walker on a two-point path of length 3 at unit speed. -/
def twoWalker : CustomState :=
  { waypoints := [(0, 0, 0), (3, 0, 0)], speed := 1, idx := 0, customT := 0 }

/-- Walker with two identical consecutive waypoints: its current segment has
zero length and zero duration. -/
def dupWalker : CustomState :=
  { waypoints := [(1, 2, 3), (1, 2, 3)], speed := 1, idx := 0, customT := 0 }

/-! ### Helper lemmas -/

lemma le_clamp (v lo hi : ℝ) : lo ≤ clamp v lo hi := le_max_left _ _

lemma clamp_le (v lo hi : ℝ) (h : lo ≤ hi) : clamp v lo hi ≤ hi :=
  max_le h (min_le_left _ _)

lemma clamp_eq_self (v lo hi : ℝ) (h1 : lo ≤ v) (h2 : v ≤ hi) :
    clamp v lo hi = v := by
  unfold clamp
  rw [min_eq_right h2, max_eq_right h1]

lemma abs_clamp_le (v c : ℝ) (h : 0 ≤ c) : |clamp v (-c) c| ≤ c :=
  abs_le.mpr ⟨le_clamp v (-c) c, clamp_le v (-c) c (by linarith)⟩

lemma sqrt_clamped_nonneg (v : ℝ) : 0 ≤ Real.sqrt (clamp v 0 (wMax * wMax)) :=
  Real.sqrt_nonneg _

lemma sqrt_clamped_le (v : ℝ) : Real.sqrt (clamp v 0 (wMax * wMax)) ≤ wMax := by
  have h1 : clamp v 0 (wMax * wMax) ≤ wMax * wMax :=
    clamp_le _ _ _ (by norm_num [wMax])
  calc Real.sqrt (clamp v 0 (wMax * wMax)) ≤ Real.sqrt (wMax * wMax) :=
        Real.sqrt_le_sqrt h1
    _ = wMax := Real.sqrt_mul_self (by norm_num [wMax])

lemma step_motors (s : State) (u : Input) (env : Env) (dt : ℝ) :
    (step s u env dt).motors = allocateMotors u.T u.tau_phi u.tau_theta u.tau_psi :=
  rfl

/-! ### Claim theorems -/

/-- C3: after every plant step the vertical position is nonnegative, and
whenever the RK4 integration result has y < 0 the post-step state has y = 0,
vy = max 0 (integrated vy), and every other state component equal to the RK4
result. -/
theorem step_ground_clamp (s : State) (u : Input) (env : Env) (dt : ℝ) :
    0 ≤ (step s u env dt).y ∧
    ((rk4 s u env dt).y < 0 →
      (step s u env dt).y = 0 ∧
      (step s u env dt).vy = max 0 (rk4 s u env dt).vy ∧
      (step s u env dt).x = (rk4 s u env dt).x ∧
      (step s u env dt).z = (rk4 s u env dt).z ∧
      (step s u env dt).vx = (rk4 s u env dt).vx ∧
      (step s u env dt).vz = (rk4 s u env dt).vz ∧
      (step s u env dt).phi = (rk4 s u env dt).phi ∧
      (step s u env dt).theta = (rk4 s u env dt).theta ∧
      (step s u env dt).psi = (rk4 s u env dt).psi ∧
      (step s u env dt).p = (rk4 s u env dt).p ∧
      (step s u env dt).q = (rk4 s u env dt).q ∧
      (step s u env dt).r = (rk4 s u env dt).r) := by
  by_cases h : (rk4 s u env dt).y < 0
  · refine ⟨?_, fun _ => ?_⟩
    · simp [step, h]
    · simp [step, h]
  · refine ⟨?_, fun hy => absurd hy h⟩
    simp only [step, if_neg h]
    exact not_lt.mp h

/-- C3 witness: from a state one metre below ground with zero input, zero
wind and dt = 0 the RK4 result keeps y = -1 < 0, and the plant step clamps
the vertical position to 0. -/
theorem step_ground_clamp_witness :
    (rk4 stateNeg input0 env0 0).y < 0 ∧ (step stateNeg input0 env0 0).y = 0 := by
  have h : (rk4 stateNeg input0 env0 0).y < 0 := by
    simp only [rk4]
    norm_num [stateNeg]
  exact ⟨h, ((step_ground_clamp stateNeg input0 env0 0).2 h).1⟩

/-- C4: each motor speed returned by allocateMotors lies between 0 and wMax,
and after every plant step each entry of the stored motors tuple lies
between 0 and wMax. -/
theorem motor_speed_bounds (T tp tt ts : ℝ) (s : State) (u : Input)
    (env : Env) (dt : ℝ) :
    (0 ≤ (allocateMotors T tp tt ts).1 ∧ (allocateMotors T tp tt ts).1 ≤ wMax) ∧
    (0 ≤ (allocateMotors T tp tt ts).2.1 ∧ (allocateMotors T tp tt ts).2.1 ≤ wMax) ∧
    (0 ≤ (allocateMotors T tp tt ts).2.2.1 ∧ (allocateMotors T tp tt ts).2.2.1 ≤ wMax) ∧
    (0 ≤ (allocateMotors T tp tt ts).2.2.2 ∧ (allocateMotors T tp tt ts).2.2.2 ≤ wMax) ∧
    (0 ≤ (step s u env dt).motors.1 ∧ (step s u env dt).motors.1 ≤ wMax) ∧
    (0 ≤ (step s u env dt).motors.2.1 ∧ (step s u env dt).motors.2.1 ≤ wMax) ∧
    (0 ≤ (step s u env dt).motors.2.2.1 ∧ (step s u env dt).motors.2.2.1 ≤ wMax) ∧
    (0 ≤ (step s u env dt).motors.2.2.2 ∧ (step s u env dt).motors.2.2.2 ≤ wMax) := by
  have hm := step_motors s u env dt
  refine ⟨⟨sqrt_clamped_nonneg _, sqrt_clamped_le _⟩,
    ⟨sqrt_clamped_nonneg _, sqrt_clamped_le _⟩,
    ⟨sqrt_clamped_nonneg _, sqrt_clamped_le _⟩,
    ⟨sqrt_clamped_nonneg _, sqrt_clamped_le _⟩, ?_, ?_, ?_, ?_⟩ <;>
    rw [hm] <;>
    exact ⟨sqrt_clamped_nonneg _, sqrt_clamped_le _⟩

lemma thrustOf_nonneg (s : State) (ay : ℝ) : 0 ≤ thrustOf s ay :=
  le_clamp _ _ _

lemma thrustOf_le (s : State) (ay : ℝ) : thrustOf s ay ≤ 4 * m * g := by
  have h := clamp_le
    (m * (g + ay) / max (Real.cos s.phi * Real.cos s.theta) 0.1) 0 (m * g * 4)
    (by norm_num [m, g])
  calc thrustOf s ay ≤ m * g * 4 := h
    _ = 4 * m * g := by ring

lemma phiDesOf_abs (s : State) (ax az T : ℝ) : |phiDesOf s ax az T| ≤ 0.6 :=
  abs_clamp_le _ _ (by norm_num)

lemma thetaDesOf_abs (s : State) (ax ay az : ℝ) : |thetaDesOf s ax ay az| ≤ 0.6 :=
  abs_clamp_le _ _ (by norm_num)

/-- C5: for every state, target, gain set and dt, each of the four
controllers produces a thrust between 0 and 4 m g and desired roll and pitch
angles of magnitude at most 0.6 rad. -/
theorem controller_output_bounds (ist : IntState) (s : State) (tgt : Target)
    (Gp : PIDGains) (Gs : SMCGains) (Gt : STSGains) (Gm : MPCGains) (dt : ℝ)
    (traj : Option (ℝ → Target)) (time : ℝ) :
    (0 ≤ (computePID ist s tgt Gp dt).2.T ∧
      (computePID ist s tgt Gp dt).2.T ≤ 4 * m * g ∧
      |(computePID ist s tgt Gp dt).2.phi_des| ≤ 0.6 ∧
      |(computePID ist s tgt Gp dt).2.theta_des| ≤ 0.6) ∧
    (0 ≤ (computeSMC ist s tgt Gs dt).2.T ∧
      (computeSMC ist s tgt Gs dt).2.T ≤ 4 * m * g ∧
      |(computeSMC ist s tgt Gs dt).2.phi_des| ≤ 0.6 ∧
      |(computeSMC ist s tgt Gs dt).2.theta_des| ≤ 0.6) ∧
    (0 ≤ (computeSTS ist s tgt Gt dt).2.T ∧
      (computeSTS ist s tgt Gt dt).2.T ≤ 4 * m * g ∧
      |(computeSTS ist s tgt Gt dt).2.phi_des| ≤ 0.6 ∧
      |(computeSTS ist s tgt Gt dt).2.theta_des| ≤ 0.6) ∧
    (0 ≤ (computeMPC ist s tgt Gm dt traj time).2.T ∧
      (computeMPC ist s tgt Gm dt traj time).2.T ≤ 4 * m * g ∧
      |(computeMPC ist s tgt Gm dt traj time).2.phi_des| ≤ 0.6 ∧
      |(computeMPC ist s tgt Gm dt traj time).2.theta_des| ≤ 0.6) :=
  ⟨⟨thrustOf_nonneg _ _, thrustOf_le _ _, phiDesOf_abs _ _ _ _, thetaDesOf_abs _ _ _ _⟩,
   ⟨thrustOf_nonneg _ _, thrustOf_le _ _, phiDesOf_abs _ _ _ _, thetaDesOf_abs _ _ _ _⟩,
   ⟨thrustOf_nonneg _ _, thrustOf_le _ _, phiDesOf_abs _ _ _ _, thetaDesOf_abs _ _ _ _⟩,
   ⟨thrustOf_nonneg _ _, thrustOf_le _ _, phiDesOf_abs _ _ _ _, thetaDesOf_abs _ _ _ _⟩⟩

/-- C1 counterexample: with Kp_xy = 1, Kp_z = 2 and all other gains zero, a
unit error on both the x and the y axis makes the PID y-channel acceleration
equal 2 (the Kp_z triple) and the x-channel acceleration equal 1 (the Kp_xy
triple), contradicting the claimed assignment of Kp_xy to the altitude axis
and Kp_z to the horizontal axes. -/
theorem pid_altitude_gain_counterexample :
    (computePID resetInternal state0 tgtC1 gainsC1 0).2.ay_des ≠
      gainsC1.Kp_xy * (tgtC1.y - state0.y)
        + gainsC1.Ki_xy * (computePID resetInternal state0 tgtC1 gainsC1 0).1.iEy
        + gainsC1.Kd_xy * (tgtC1.vy - state0.vy) ∧
    (computePID resetInternal state0 tgtC1 gainsC1 0).2.ax_des ≠
      gainsC1.Kp_z * (tgtC1.x - state0.x)
        + gainsC1.Ki_z * (computePID resetInternal state0 tgtC1 gainsC1 0).1.iEx
        + gainsC1.Kd_z * (tgtC1.vx - state0.vx) := by
  constructor <;>
    simp [computePID, resetInternal, state0, tgtC1, gainsC1, clamp]

/-- C1 as amended: the PID outer loop computes the altitude-axis (y channel)
desired acceleration with the Kp_z, Ki_z, Kd_z gain triple and the
horizontal channels (x and z) with the Kp_xy, Ki_xy, Kd_xy gain triple, for
every internal state, state, target, gain set and dt. -/
theorem pid_gain_routing (ist : IntState) (s : State) (tgt : Target)
    (G : PIDGains) (dt : ℝ) :
    (computePID ist s tgt G dt).2.ax_des
      = G.Kp_xy * (tgt.x - s.x)
        + G.Ki_xy * (computePID ist s tgt G dt).1.iEx
        + G.Kd_xy * (tgt.vx - s.vx) ∧
    (computePID ist s tgt G dt).2.ay_des
      = G.Kp_z * (tgt.y - s.y)
        + G.Ki_z * (computePID ist s tgt G dt).1.iEy
        + G.Kd_z * (tgt.vy - s.vy) ∧
    (computePID ist s tgt G dt).2.az_des
      = G.Kp_xy * (tgt.z - s.z)
        + G.Ki_xy * (computePID ist s tgt G dt).1.iEz
        + G.Kd_xy * (tgt.vz - s.vz) :=
  ⟨rfl, rfl, rfl⟩

lemma sign_zero : sign 0 = 0 := by
  simp [sign]

lemma sat_zero_zero : sat 0 0 = 0 := by
  simp [sat, sign]

/-- C7 counterexample: with unit SMC gains, zero boundary layer, position
error 1 and velocity error -1 on the x axis, the sliding surface s_x is
exactly 0 yet the produced desired acceleration is -1, not 0. -/
theorem smc_zero_surface_counterexample :
    (computeSMC resetInternal state0 tgtC7 gainsC7 0).1.s_x = 0 ∧
    (computeSMC resetInternal state0 tgtC7 gainsC7 0).2.ax_des ≠ 0 := by
  constructor <;>
    simp [computeSMC, resetInternal, state0, tgtC7, gainsC7, sat, sign]

/-- C7 as amended: for the SMC controller with zero boundary layer, a zero
sliding surface on a translational axis makes the switching term vanish, so
the desired acceleration of that axis equals lambda times the velocity
error; in particular it is 0 exactly when the velocity error is also 0. -/
theorem smc_zero_surface (ist : IntState) (s : State) (tgt : Target)
    (G : SMCGains) (dt : ℝ) :
    (G.phi_xy = 0 → (tgt.vx - s.vx) + G.lambda_xy * (tgt.x - s.x) = 0 →
      (computeSMC ist s tgt G dt).2.ax_des = G.lambda_xy * (tgt.vx - s.vx)) ∧
    (G.phi_z = 0 → (tgt.vy - s.vy) + G.lambda_z * (tgt.y - s.y) = 0 →
      (computeSMC ist s tgt G dt).2.ay_des = G.lambda_z * (tgt.vy - s.vy)) ∧
    (G.phi_xy = 0 → (tgt.vz - s.vz) + G.lambda_xy * (tgt.z - s.z) = 0 →
      (computeSMC ist s tgt G dt).2.az_des = G.lambda_xy * (tgt.vz - s.vz)) := by
  refine ⟨fun h0 hs => ?_, fun h0 hs => ?_, fun h0 hs => ?_⟩
  · have e : (computeSMC ist s tgt G dt).2.ax_des
        = G.lambda_xy * (tgt.vx - s.vx)
          + G.eta_xy * sat ((tgt.vx - s.vx) + G.lambda_xy * (tgt.x - s.x)) G.phi_xy := rfl
    rw [e, hs, h0, sat_zero_zero, mul_zero, add_zero]
  · have e : (computeSMC ist s tgt G dt).2.ay_des
        = G.lambda_z * (tgt.vy - s.vy)
          + G.eta_z * sat ((tgt.vy - s.vy) + G.lambda_z * (tgt.y - s.y)) G.phi_z := rfl
    rw [e, hs, h0, sat_zero_zero, mul_zero, add_zero]
  · have e : (computeSMC ist s tgt G dt).2.az_des
        = G.lambda_xy * (tgt.vz - s.vz)
          + G.eta_xy * sat ((tgt.vz - s.vz) + G.lambda_xy * (tgt.z - s.z)) G.phi_xy := rfl
    rw [e, hs, h0, sat_zero_zero, mul_zero, add_zero]

/-- C7 witness: the amended theorem applied at the concrete zero-surface
input of the counterexample. -/
theorem smc_zero_surface_witness :
    gainsC7.phi_xy = 0 ∧
    (tgtC7.vx - state0.vx) + gainsC7.lambda_xy * (tgtC7.x - state0.x) = 0 ∧
    (computeSMC resetInternal state0 tgtC7 gainsC7 0).2.ax_des
      = gainsC7.lambda_xy * (tgtC7.vx - state0.vx) := by
  have h0 : gainsC7.phi_xy = 0 := rfl
  have hs : (tgtC7.vx - state0.vx) + gainsC7.lambda_xy * (tgtC7.x - state0.x) = 0 := by
    norm_num [tgtC7, state0, gainsC7]
  exact ⟨h0, hs, (smc_zero_surface resetInternal state0 tgtC7 gainsC7 0).1 h0 hs⟩

/-- C2: when none of the four raw omega-squared values leaves the interval
from 0 to wMax^2, motor allocation followed by forward X-configuration
mixing reproduces the input exactly. -/
theorem alloc_mix_roundtrip (T tp tt ts : ℝ)
    (h1a : 0 ≤ w1sqRaw T tp tt ts) (h1b : w1sqRaw T tp tt ts ≤ wMax * wMax)
    (h2a : 0 ≤ w2sqRaw T tp tt ts) (h2b : w2sqRaw T tp tt ts ≤ wMax * wMax)
    (h3a : 0 ≤ w3sqRaw T tp tt ts) (h3b : w3sqRaw T tp tt ts ≤ wMax * wMax)
    (h4a : 0 ≤ w4sqRaw T tp tt ts) (h4b : w4sqRaw T tp tt ts ≤ wMax * wMax) :
    mixT (allocateMotors T tp tt ts) = T ∧
    mixTauPhi (allocateMotors T tp tt ts) = tp ∧
    mixTauTheta (allocateMotors T tp tt ts) = tt ∧
    mixTauPsi (allocateMotors T tp tt ts) = ts := by
  have e1 : (allocateMotors T tp tt ts).1 ^ 2 = w1sqRaw T tp tt ts := by
    show Real.sqrt (clamp (w1sqRaw T tp tt ts) 0 (wMax * wMax)) ^ 2 = _
    rw [clamp_eq_self _ _ _ h1a h1b, Real.sq_sqrt h1a]
  have e2 : (allocateMotors T tp tt ts).2.1 ^ 2 = w2sqRaw T tp tt ts := by
    show Real.sqrt (clamp (w2sqRaw T tp tt ts) 0 (wMax * wMax)) ^ 2 = _
    rw [clamp_eq_self _ _ _ h2a h2b, Real.sq_sqrt h2a]
  have e3 : (allocateMotors T tp tt ts).2.2.1 ^ 2 = w3sqRaw T tp tt ts := by
    show Real.sqrt (clamp (w3sqRaw T tp tt ts) 0 (wMax * wMax)) ^ 2 = _
    rw [clamp_eq_self _ _ _ h3a h3b, Real.sq_sqrt h3a]
  have e4 : (allocateMotors T tp tt ts).2.2.2 ^ 2 = w4sqRaw T tp tt ts := by
    show Real.sqrt (clamp (w4sqRaw T tp tt ts) 0 (wMax * wMax)) ^ 2 = _
    rw [clamp_eq_self _ _ _ h4a h4b, Real.sq_sqrt h4a]
  have hkT : kT ≠ 0 := by norm_num [kT]
  have hkD : kD ≠ 0 := by norm_num [kD]
  have hL : Larm ≠ 0 := by norm_num [Larm]
  have hs2 : Real.sqrt 2 ≠ 0 := by positivity
  refine ⟨?_, ?_, ?_, ?_⟩
  · unfold mixT
    rw [e1, e2, e3, e4]
    have hsum : w1sqRaw T tp tt ts + w2sqRaw T tp tt ts
        + w3sqRaw T tp tt ts + w4sqRaw T tp tt ts = T / kT := by
      unfold w1sqRaw w2sqRaw w3sqRaw w4sqRaw
      ring
    rw [hsum, mul_div_cancel₀ T hkT]
  · unfold mixTauPhi
    rw [e1, e2, e3, e4]
    have hsum : -w1sqRaw T tp tt ts - w2sqRaw T tp tt ts
        + w3sqRaw T tp tt ts + w4sqRaw T tp tt ts
        = tp * Real.sqrt 2 / (kT * Larm) := by
      unfold w1sqRaw w2sqRaw w3sqRaw w4sqRaw
      ring
    rw [hsum]
    field_simp
  · unfold mixTauTheta
    rw [e1, e2, e3, e4]
    have hsum : -w1sqRaw T tp tt ts + w2sqRaw T tp tt ts
        + w3sqRaw T tp tt ts - w4sqRaw T tp tt ts
        = tt * Real.sqrt 2 / (kT * Larm) := by
      unfold w1sqRaw w2sqRaw w3sqRaw w4sqRaw
      ring
    rw [hsum]
    field_simp
  · unfold mixTauPsi
    rw [e1, e2, e3, e4]
    have hsum : -w1sqRaw T tp tt ts + w2sqRaw T tp tt ts
        - w3sqRaw T tp tt ts + w4sqRaw T tp tt ts = ts / kD := by
      unfold w1sqRaw w2sqRaw w3sqRaw w4sqRaw
      ring
    rw [hsum, mul_div_cancel₀ ts hkD]

/-- C2 witness: the hover-like input (4 kT, 0, 0, 0) makes every raw
omega-squared equal 1, inside the admissible band, and the round-trip
reproduces the input. -/
theorem alloc_mix_roundtrip_witness :
    (0 ≤ w1sqRaw (4 * kT) 0 0 0 ∧ w1sqRaw (4 * kT) 0 0 0 ≤ wMax * wMax) ∧
    (0 ≤ w2sqRaw (4 * kT) 0 0 0 ∧ w2sqRaw (4 * kT) 0 0 0 ≤ wMax * wMax) ∧
    (0 ≤ w3sqRaw (4 * kT) 0 0 0 ∧ w3sqRaw (4 * kT) 0 0 0 ≤ wMax * wMax) ∧
    (0 ≤ w4sqRaw (4 * kT) 0 0 0 ∧ w4sqRaw (4 * kT) 0 0 0 ≤ wMax * wMax) ∧
    mixT (allocateMotors (4 * kT) 0 0 0) = 4 * kT := by
  have h40 : (4 : ℝ) * kT ≠ 0 := by norm_num [kT]
  have h1 : w1sqRaw (4 * kT) 0 0 0 = 1 := by
    unfold w1sqRaw
    rw [div_self h40]
    simp
  have h2 : w2sqRaw (4 * kT) 0 0 0 = 1 := by
    unfold w2sqRaw
    rw [div_self h40]
    simp
  have h3 : w3sqRaw (4 * kT) 0 0 0 = 1 := by
    unfold w3sqRaw
    rw [div_self h40]
    simp
  have h4 : w4sqRaw (4 * kT) 0 0 0 = 1 := by
    unfold w4sqRaw
    rw [div_self h40]
    simp
  have hb : ∀ v : ℝ, v = 1 → 0 ≤ v ∧ v ≤ wMax * wMax := by
    intro v hv
    rw [hv]
    norm_num [wMax]
  refine ⟨hb _ h1, hb _ h2, hb _ h3, hb _ h4, ?_⟩
  exact (alloc_mix_roundtrip (4 * kT) 0 0 0
    (hb _ h1).1 (hb _ h1).2 (hb _ h2).1 (hb _ h2).2
    (hb _ h3).1 (hb _ h3).2 (hb _ h4).1 (hb _ h4).2).1

lemma mpcAccum_eq (N : ℕ) (pos vel : ℝ) (refFn : ℝ → ℝ)
    (Qp Qv time dtPred : ℝ) (j : ℕ) :
    mpcAccum N pos vel refFn Qp Qv time dtPred j =
      (∑ k in Finset.Icc 1 j, (1 - 0.3 * ((k : ℝ) - 1) / (N : ℝ)) *
          (Qp * (refFn (time + (k : ℝ) * dtPred) - (pos + vel * ((k : ℝ) * dtPred)))
            - Qv * vel),
       ∑ k in Finset.Icc 1 j, (1 - 0.3 * ((k : ℝ) - 1) / (N : ℝ))) := by
  induction j with
  | zero => simp [mpcAccum]
  | succ n ih =>
    rw [mpcAccum, ih]
    rw [Finset.sum_Icc_succ_top (by omega : 1 ≤ n + 1),
      Finset.sum_Icc_succ_top (by omega : 1 ≤ n + 1)]
    simp only [Prod.mk.injEq]
    constructor <;> (push_cast; ring)

/-- C6: the per-axis MPC desired acceleration computed by the solve1D loop
equals exactly the closed-form weighted-sum formula of the spec, for every
internal state, state, target, gain set, dt, trajectory function and time. -/
theorem mpc_accel_formula (ist : IntState) (s : State) (tgt : Target)
    (G : MPCGains) (dt : ℝ) (traj : Option (ℝ → Target)) (time : ℝ) :
    (computeMPC ist s tgt G dt traj time).2.ax_des
      = solve1Dspec G.N s.x s.vx (fun t => (refFnOf tgt traj t).x)
          G.Q_pos G.Q_vel G.R time dt ∧
    (computeMPC ist s tgt G dt traj time).2.ay_des
      = solve1Dspec G.N s.y s.vy (fun t => (refFnOf tgt traj t).y)
          G.Q_pos G.Q_vel G.R time dt ∧
    (computeMPC ist s tgt G dt traj time).2.az_des
      = solve1Dspec G.N s.z s.vz (fun t => (refFnOf tgt traj t).z)
          G.Q_pos G.Q_vel G.R time dt := by
  have h : ∀ (pos vel : ℝ) (refFn : ℝ → ℝ),
      solve1D G.N pos vel refFn G.Q_pos G.Q_vel G.R time (dt * 2)
        = solve1Dspec G.N pos vel refFn G.Q_pos G.Q_vel G.R time dt := by
    intro pos vel refFn
    rw [mul_comm dt 2]
    unfold solve1D solve1Dspec
    rw [mpcAccum_eq]
  exact ⟨h s.x s.vx _, h s.y s.vy _, h s.z s.vz _⟩

/-- C9: after every MPC compute call the published prediction list has
exactly N + 1 entries, its first entry is exactly the current position, and
the returned control result does not depend on the incoming internal state
in which the prediction is stored. -/
theorem mpc_prediction_telemetry (ist : IntState) (s : State) (tgt : Target)
    (G : MPCGains) (dt : ℝ) (traj : Option (ℝ → Target)) (time : ℝ)
    (ist2 : IntState) :
    ((computeMPC ist s tgt G dt traj time).1.mpcPrediction).length = G.N + 1 ∧
    ((computeMPC ist s tgt G dt traj time).1.mpcPrediction).head?
      = some (s.x, s.y, s.z) ∧
    (computeMPC ist s tgt G dt traj time).2
      = (computeMPC ist2 s tgt G dt traj time).2 := by
  refine ⟨?_, ?_, rfl⟩
  · simp only [computeMPC]
    rw [List.length_map, List.length_range]
  · simp only [computeMPC]
    rw [List.range_succ_eq_map]
    simp

/-- C8 counterexample: with CIRCLE as the prior valid pattern, evaluating an
unknown pattern id yields the fixed default setpoint, not the CIRCLE value;
with PID as the prior valid algorithm, dispatching an unknown algorithm id
yields no control vector at all, while the valid id yields one. -/
theorem unknown_config_counterexample :
    evaluate "XYZ" 0 ≠ evaluate "CIRCLE" 0 ∧
    compute "XYZ" resetInternal state0 defaultSetpoint (GainSet.PID gains0)
      0 none 0 = none ∧
    compute "PID" resetInternal state0 defaultSetpoint (GainSet.PID gains0)
      0 none 0 ≠ none := by
  refine ⟨?_, ?_, ?_⟩
  · intro h
    have hx := congrArg Target.x h
    simp [evaluate, circleFn, defaultSetpoint] at hx
  · simp [compute]
  · simp [compute]

/-- C8 as amended: evaluating the reference with an unknown pattern id
returns the fixed built-in default setpoint (0, 3, 0) with zero velocity and
yaw, independent of any prior configuration, and dispatching the controller
with an unknown algorithm id returns no control vector. -/
theorem unknown_id_defaults :
    (∀ (key : String) (t : ℝ), key ≠ "HOVER" → key ≠ "CIRCLE" → key ≠ "HELIX" →
      key ≠ "FIGURE8" → key ≠ "SQUARE" → key ≠ "STEP" →
      evaluate key t = defaultSetpoint) ∧
    (∀ (algo : String) (ist : IntState) (s : State) (tgt : Target)
      (gains : GainSet) (dt : ℝ) (traj : Option (ℝ → Target)) (time : ℝ),
      algo ≠ "PID" → algo ≠ "SMC" → algo ≠ "STS" → algo ≠ "MPC" →
      compute algo ist s tgt gains dt traj time = none) := by
  constructor
  · intro key t h1 h2 h3 h4 h5 h6
    simp [evaluate, h1, h2, h3, h4, h5, h6]
  · intro algo ist s tgt gains dt traj time h1 h2 h3 h4
    simp [compute, h1, h2, h3, h4]

/-- C8 witness: the amended theorem applied at the concrete unknown id XYZ. -/
theorem unknown_id_defaults_witness :
    (("XYZ" : String) ≠ "HOVER" ∧ ("XYZ" : String) ≠ "CIRCLE" ∧
      ("XYZ" : String) ≠ "HELIX" ∧ ("XYZ" : String) ≠ "FIGURE8" ∧
      ("XYZ" : String) ≠ "SQUARE" ∧ ("XYZ" : String) ≠ "STEP" ∧
      ("XYZ" : String) ≠ "PID" ∧ ("XYZ" : String) ≠ "SMC" ∧
      ("XYZ" : String) ≠ "STS" ∧ ("XYZ" : String) ≠ "MPC") ∧
    evaluate "XYZ" 0 = defaultSetpoint ∧
    compute "XYZ" resetInternal state0 defaultSetpoint (GainSet.PID gains0)
      0 none 0 = none := by
  refine ⟨⟨?_, ?_, ?_, ?_, ?_, ?_, ?_, ?_, ?_, ?_⟩, ?_, ?_⟩
  · decide
  · decide
  · decide
  · decide
  · decide
  · decide
  · decide
  · decide
  · decide
  · decide
  · exact unknown_id_defaults.1 "XYZ" 0 (by decide) (by decide) (by decide)
      (by decide) (by decide) (by decide)
  · exact unknown_id_defaults.2 "XYZ" resetInternal state0 defaultSetpoint
      (GainSet.PID gains0) 0 none 0 (by decide) (by decide) (by decide) (by decide)

/-- C10 counterexample: with an empty waypoint list the walker state is
returned unchanged, so the segment-local time does not advance by 0.016. -/
theorem custom_time_counterexample :
    (evaluateCustom emptyWalker (1 / 120)).2.customT
      ≠ emptyWalker.customT + 0.016 := by
  simp [evaluateCustom, emptyWalker]
  norm_num

/-- C10 as amended: the custom-waypoint evaluation ignores its time argument
entirely (the setpoint and the post-call walker state agree for any two call
times), and with at least two waypoints each call advances the segment-local
time by the fixed constant 0.016 independent of the simulation timestep,
except that when the incremented time reaches the segment duration - a
zero-length segment counting as reached, since the IEEE division by zero
makes the source's frac equal 1 there - the index advances cyclically and
the segment-local time resets to 0; with fewer than two waypoints the state
is unchanged. -/
theorem custom_walker_behavior (cs : CustomState) (t1 t2 : ℝ) :
    evaluateCustom cs t1 = evaluateCustom cs t2 ∧
    (cs.waypoints.length ≤ 1 → (evaluateCustom cs t1).2 = cs) ∧
    (2 ≤ cs.waypoints.length →
      (jsFrac (cs.customT + 0.016) (customSegTime cs) < 1 →
        (evaluateCustom cs t1).2.customT = cs.customT + 0.016 ∧
        (evaluateCustom cs t1).2.idx = cs.idx) ∧
      (1 ≤ jsFrac (cs.customT + 0.016) (customSegTime cs) →
        (evaluateCustom cs t1).2.customT = 0 ∧
        (evaluateCustom cs t1).2.idx = (cs.idx + 1) % cs.waypoints.length)) := by
  refine ⟨rfl, ?_, ?_⟩
  · intro hlen
    unfold evaluateCustom
    rcases Nat.le_one_iff_eq_zero_or_eq_one.mp hlen with h | h <;> simp [h]
  · intro hlen
    have h0 : ¬ cs.waypoints.length = 0 := by omega
    have h1 : ¬ cs.waypoints.length = 1 := by omega
    constructor
    · intro hf
      have hfr : ¬ (1 ≤ jsFrac (cs.customT + 0.016) (customSegTime cs)) :=
        not_le.mpr hf
      simp [evaluateCustom, h0, h1, hfr]
    · intro hf
      simp [evaluateCustom, h0, h1, hf]

/-- C10 witness: on a two-point path of length 3 at unit speed the segment
is not yet complete and a call advances the segment-local time by exactly
0.016, while on a zero-length segment (duplicate consecutive waypoints) the
call advances the index and resets the segment-local time, as the source
does under its IEEE division by zero. -/
theorem custom_walker_behavior_witness :
    (2 ≤ twoWalker.waypoints.length ∧
      jsFrac (twoWalker.customT + 0.016) (customSegTime twoWalker) < 1 ∧
      (evaluateCustom twoWalker 0).2.customT = twoWalker.customT + 0.016) ∧
    (2 ≤ dupWalker.waypoints.length ∧
      1 ≤ jsFrac (dupWalker.customT + 0.016) (customSegTime dupWalker) ∧
      (evaluateCustom dupWalker 0).2.customT = 0 ∧
      (evaluateCustom dupWalker 0).2.idx
        = (dupWalker.idx + 1) % dupWalker.waypoints.length) := by
  have hlen : 2 ≤ twoWalker.waypoints.length := by
    simp [twoWalker]
  have hseg : customSegTime twoWalker = 3 := by
    unfold customSegTime customCurr customNext
    simp only [twoWalker]
    norm_num
    rw [show (9 : ℝ) = 3 ^ 2 by norm_num, Real.sqrt_sq (by norm_num : (0:ℝ) ≤ 3)]
  have hfr : jsFrac (twoWalker.customT + 0.016) (customSegTime twoWalker) < 1 := by
    rw [hseg]
    unfold jsFrac
    rw [if_neg (by norm_num)]
    exact lt_of_le_of_lt (min_le_left _ _) (by norm_num [twoWalker])
  have hlen2 : 2 ≤ dupWalker.waypoints.length := by
    simp [dupWalker]
  have hseg0 : customSegTime dupWalker = 0 := by
    unfold customSegTime customCurr customNext
    simp [dupWalker]
  have hfr0 : 1 ≤ jsFrac (dupWalker.customT + 0.016) (customSegTime dupWalker) := by
    rw [hseg0]
    unfold jsFrac
    rw [if_pos ⟨rfl, by norm_num [dupWalker]⟩]
  refine ⟨⟨hlen, hfr, (((custom_walker_behavior twoWalker 0 0).2.2 hlen).1 hfr).1⟩,
    ⟨hlen2, hfr0, ?_, ?_⟩⟩
  · exact (((custom_walker_behavior dupWalker 0 0).2.2 hlen2).2 hfr0).1
  · exact (((custom_walker_behavior dupWalker 0 0).2.2 hlen2).2 hfr0).2

end

end Drone
